import Mathlib

/-!
Verification of the aries-avalon identifier-resolution service (`main.go`)
against its natural-language specification.

The Go program is a small HTTP adapter: `ariesLookup` resolves an
identifier by querying a Solr index (primary `id:"..."` query, fallback
`identifier_ssim:"..."` query), and shapes the single matching document
into an `aries` response.  `healthCheckHandler` pings the index with a
zero-row query.  The outbound HTTP world and the JSON decoder are
modelled as oracles (`Env`), so every theorem quantifies over all
possible upstream behaviours.  Go panics (out-of-range indexing such as
`doc.Model[0]` on an empty slice) are modelled by the `crash` outcome.
-/

namespace AriesAvalon

/-- Mirrors Go struct `serviceURL` (fields `URL`, `Protocol`). -/
structure ServiceURL where
  url : String
  protocol : String
deriving Repr, DecidableEq

/-- Mirrors Go struct `aries`, the response of `/api/aries/:id`.
Every field is a Go slice whose zero value is the empty list. -/
structure Aries where
  identifiers : List String := []
  serviceURL : List ServiceURL := []
  accessURL : List String := []
  adminURL : List String := []
  metadataURL : List String := []
  masterFile : List String := []
  derivativeFile : List String := []
deriving Repr, DecidableEq

/-- Mirrors Go struct `solrDoc` (JSON fields `id`, `has_model_ssim`,
`isPartOf_ssim`, `file_location_ssi`, `identifier_ssim`,
`derivativeFile_ssi`). -/
structure SolrDoc where
  id : String := ""
  model : List String := []
  partOf : List String := []
  fileLocation : String := ""
  identifierSSIM : List String := []
  derivativeFile : String := ""
deriving Repr, DecidableEq

/-- Mirrors Go struct `solrHeader`. -/
structure SolrHeader where
  status : Int := 0
  qtime : Int := 0
deriving Repr, DecidableEq

/-- Mirrors Go struct `solrResponse` (`numFound`, `start`, `docs`);
`numFound` is a Go `int`, hence `Int`. -/
structure SolrResponse where
  numFound : Int := 0
  start : Int := 0
  docs : List SolrDoc := []
deriving Repr, DecidableEq

/-- Mirrors Go struct `solrFullResponse`. -/
structure SolrFullResponse where
  responseHeader : SolrHeader := {}
  response : SolrResponse := {}
deriving Repr, DecidableEq

/-- Outcome of one outbound `http.Client.Get`: either a transport-level
failure (connection error or the 10-second client timeout, both of which
surface in Go as a non-nil `err` from `client.Get`) or a response with a
status code and a body. -/
inductive HTTPResult where
  | transportErr (msg : String)
  | response (statusCode : Nat) (body : String)
deriving Repr, DecidableEq

/-- The two process-wide configuration strings the resolver reads
(`solrURL`, `solrCore`) plus the catalog base URL (`avalonURL`). -/
structure Config where
  solrURL : String
  solrCore : String
  avalonURL : String
deriving Repr, DecidableEq

/-- Oracles for the outside world: `world` gives the HTTP outcome of a
GET on each URL, `parse` models `json.Unmarshal` into
`solrFullResponse` (`none` = unmarshal error), and `escape` models
`url.QueryEscape`.  `parse_empty` records that `json.Unmarshal` of an
empty body always fails in Go. -/
structure Env where
  world : String → HTTPResult
  parse : String → Option SolrFullResponse
  escape : String → String
  parse_empty : parse "" = none

/-- Mirrors Go `getAPIResponse`: a transport error is returned as-is;
a non-200 status turns the body into the error value; otherwise the
body is returned. -/
def getAPIResponse (world : String → HTTPResult) (url : String) : Except String String :=
  match world url with
  | .transportErr msg => .error msg
  | .response statusCode body => if statusCode = 200 then .ok body else .error body

/-- Mirrors the Go pattern `respStr, _ = getAPIResponse(urlStr)`: the
error is discarded and on failure `respStr` is the empty string. -/
def fetchIgnoringError (world : String → HTTPResult) (url : String) : String :=
  match getAPIResponse world url with
  | .ok s => s
  | .error _ => ""

/-- Mirrors Go `hasValue`. -/
def hasValue (values : List String) (tgtVal : String) : Bool :=
  values.any (fun val => val == tgtVal)

/-- The field list of the record-lookup queries
(`&fl=id,identifier_ssim,file_location_ssi,has_model_ssim,isPartOf_ssim`). -/
def lookupFL : String := "&fl=id,identifier_ssim,file_location_ssi,has_model_ssim,isPartOf_ssim"

/-- Mirrors the Go format string
`"%s/%s/select?q=%s&wt=json&indent=true%s"` used to build every solr
query URL in `ariesLookup`. -/
def selectURL (cfg : Config) (qs : String) (fl : String) : String :=
  cfg.solrURL ++ "/" ++ cfg.solrCore ++ "/select?q=" ++ qs ++ "&wt=json&indent=true" ++ fl

/-- One outbound index query, tagged by the call site that issued it. -/
inductive Query where
  | primaryQ (url : String)
  | fallbackQ (url : String)
  | derivativeQ (url : String)
deriving Repr, DecidableEq

/-- What the handler does with the gin context: `text s b` models
`c.String(s, b)`, `json s out` models `c.JSON(s, out)`, and `crash`
models a Go runtime panic (index out of range). -/
inductive AriesOutcome where
  | text (status : Nat) (body : String)
  | json (status : Nat) (out : Aries)
  | crash (msg : String)
deriving Repr, DecidableEq

/-- An outcome counts as a successful resolution exactly when it is an
HTTP 200 JSON reply. -/
def AriesOutcome.isSuccess : AriesOutcome → Bool
  | .json 200 _ => true
  | _ => false

/-- The primary query string `id:"{passedID}"` after escaping. -/
def primaryQS (env : Env) (passedID : String) : String :=
  env.escape ("id:\x22" ++ passedID ++ "\x22")

/-- The fallback query string `identifier_ssim:"{passedID}"` after escaping. -/
def fallbackQS (env : Env) (passedID : String) : String :=
  env.escape ("identifier_ssim:\x22" ++ passedID ++ "\x22")

/-- The full URL of the primary `id:"..."` query. -/
def primaryURL (cfg : Config) (env : Env) (passedID : String) : String :=
  selectURL cfg (primaryQS env passedID) lookupFL

/-- The full URL of the fallback `identifier_ssim:"..."` query. -/
def fallbackURL (cfg : Config) (env : Env) (passedID : String) : String :=
  selectURL cfg (fallbackQS env passedID) lookupFL

/-- The full URL of the best-effort `isDerivationOf_ssim:"..."` query
issued for non-`MediaObject` records. -/
def derivativeURL (cfg : Config) (env : Env) (docID : String) : String :=
  selectURL cfg (env.escape ("isDerivationOf_ssim:\x22" ++ docID ++ "\x22"))
    "&fl=id,derivativeFile_ssi"

/-- The tail of `ariesLookup` after the zero-hit checks: the
too-many-hits guard, `doc := resp.Response.Docs[0]`, response assembly
and, for non-`MediaObject` records, the derivative query.  `qs` and
`urlStr` are the query string and URL of whichever query produced
`resp` (primary or fallback); `tr` is the trace of queries issued so
far. -/
def ariesBuild (cfg : Config) (env : Env) (passedID : String) (qs : String)
    (urlStr : String) (resp : SolrFullResponse) (tr : List Query) :
    AriesOutcome × List Query :=
  if resp.response.numFound > 1 then
    (.text 400 (passedID ++ " has too many hits. Query: " ++ urlStr), tr)
  else
    match resp.response.docs with
    | [] => (.crash "index out of range: Docs[0]", tr)
    | doc :: _ =>
      let identifiers := doc.id :: doc.identifierSSIM
      let masterFile := if doc.fileLocation ≠ "" then [doc.fileLocation] else []
      let svc : ServiceURL :=
        { url := cfg.solrURL ++ "/" ++ cfg.solrCore ++ "/select?q=" ++ qs,
          protocol := "avalon-index" }
      match doc.model with
      | [] => (.crash "index out of range: Model[0]", tr)
      | m :: _ =>
        if m = "MediaObject" then
          (.json 200
            { identifiers := identifiers,
              serviceURL := [svc],
              accessURL := [cfg.avalonURL ++ "/media_objects/" ++ doc.id],
              adminURL := [cfg.avalonURL ++ "/media_objects/" ++ doc.id ++ "/edit"],
              metadataURL := [cfg.avalonURL ++ "/media_objects/" ++ doc.id ++ "/content/descMetadata"],
              masterFile := masterFile,
              derivativeFile := [] }, tr)
        else
          match doc.partOf with
          | [] => (.crash "index out of range: PartOf[0]", tr)
          | parent :: _ =>
            let durl := derivativeURL cfg env doc.id
            let dbody := fetchIgnoringError env.world durl
            let derivs :=
              match env.parse dbody with
              | none => []
              | some r =>
                (r.response.docs.filter (fun d => d.derivativeFile ≠ "")).map
                  (fun d => d.derivativeFile)
            (.json 200
              { identifiers := identifiers,
                serviceURL := [svc],
                accessURL := [cfg.avalonURL ++ "/media_objects/" ++ parent ++ "/section/" ++ doc.id],
                adminURL := [cfg.avalonURL ++ "/media_objects/" ++ parent ++ "/section/" ++ doc.id ++ "/edit"],
                metadataURL := [],
                masterFile := masterFile,
                derivativeFile := derivs }, tr ++ [.derivativeQ durl])

/-- Mirrors Go `ariesLookup`, instrumented with the ordered list of
index queries issued.  The primary `id:"..."` query is required (its
transport error or unmarshal failure is a 404); a zero-hit primary
result triggers the fallback `identifier_ssim:"..."` query whose
transport error is discarded (leaving an empty, unparseable body). -/
def ariesLookupT (cfg : Config) (env : Env) (passedID : String) :
    AriesOutcome × List Query :=
  let url1 := primaryURL cfg env passedID
  match getAPIResponse env.world url1 with
  | .error e => (.text 404 e, [.primaryQ url1])
  | .ok respStr =>
    match env.parse respStr with
    | none => (.text 404 (passedID ++ " not found"), [.primaryQ url1])
    | some resp =>
      if resp.response.numFound = 0 then
        let url2 := fallbackURL cfg env passedID
        let respStr2 := fetchIgnoringError env.world url2
        match env.parse respStr2 with
        | none => (.text 404 (passedID ++ " not found"), [.primaryQ url1, .fallbackQ url2])
        | some resp2 =>
          if resp2.response.numFound = 0 then
            (.text 404 (passedID ++ " not found"), [.primaryQ url1, .fallbackQ url2])
          else
            ariesBuild cfg env passedID (fallbackQS env passedID) url2 resp2
              [.primaryQ url1, .fallbackQ url2]
      else
        ariesBuild cfg env passedID (primaryQS env passedID) url1 resp [.primaryQ url1]

/-- The caller-visible outcome of `ariesLookup` (trace dropped). -/
def ariesLookup (cfg : Config) (env : Env) (passedID : String) : AriesOutcome :=
  (ariesLookupT cfg env passedID).1

/-- The zero-row ping query URL of the health check. -/
def healthPingURL (cfg : Config) : String :=
  cfg.solrURL ++ "/" ++ cfg.solrCore ++ "/select?q=*:*&wt=json&rows=0"

/-- Mirrors Go `healthCheckHandler`: always HTTP 200, with a map whose
`AriesAvalon` entry is `"true"` and whose `Avalon` entry reflects the
zero-row ping query.  The map is kept as an association list in
insertion order. -/
def healthCheckHandler (cfg : Config) (world : String → HTTPResult) :
    Nat × List (String × String) :=
  let url := healthPingURL cfg
  let avalon :=
    match getAPIResponse world url with
    | .error _ => "false"
    | .ok _ => "true"
  (200, [("AriesAvalon", "true"), ("Avalon", avalon)])

/-! Reduction lemmas shared by the claim theorems. -/

/-- When the primary query succeeds, parses, and has hits, `ariesLookup`
is the build phase applied to the primary response. -/
theorem ariesLookupT_primary_hit (cfg : Config) (env : Env) (passedID body : String)
    (resp : SolrFullResponse)
    (hfetch : env.world (primaryURL cfg env passedID) = .response 200 body)
    (hparse : env.parse body = some resp)
    (h0 : resp.response.numFound ≠ 0) :
    ariesLookupT cfg env passedID
      = ariesBuild cfg env passedID (primaryQS env passedID) (primaryURL cfg env passedID)
          resp [Query.primaryQ (primaryURL cfg env passedID)] := by
  unfold ariesLookupT
  simp [getAPIResponse, hfetch, hparse, h0]

/-- When the primary query succeeds and parses with zero hits, the
fallback query decides the outcome. -/
theorem ariesLookupT_fallback (cfg : Config) (env : Env) (passedID body : String)
    (resp : SolrFullResponse)
    (hfetch : env.world (primaryURL cfg env passedID) = .response 200 body)
    (hparse : env.parse body = some resp)
    (h0 : resp.response.numFound = 0) :
    ariesLookupT cfg env passedID
      = (match env.parse (fetchIgnoringError env.world (fallbackURL cfg env passedID)) with
        | none =>
          (.text 404 (passedID ++ " not found"),
            [Query.primaryQ (primaryURL cfg env passedID),
             Query.fallbackQ (fallbackURL cfg env passedID)])
        | some resp2 =>
          if resp2.response.numFound = 0 then
            (.text 404 (passedID ++ " not found"),
              [Query.primaryQ (primaryURL cfg env passedID),
               Query.fallbackQ (fallbackURL cfg env passedID)])
          else
            ariesBuild cfg env passedID (fallbackQS env passedID)
              (fallbackURL cfg env passedID) resp2
              [Query.primaryQ (primaryURL cfg env passedID),
               Query.fallbackQ (fallbackURL cfg env passedID)]) := by
  unfold ariesLookupT
  simp [getAPIResponse, hfetch, hparse, h0]

/-- The build phase never issues a fallback query: a `fallbackQ` entry
is in its trace only if it already was in the incoming trace. -/
theorem ariesBuild_fallback_mem (cfg : Config) (env : Env) (passedID qs urlStr : String)
    (resp : SolrFullResponse) (tr : List Query) (u : String) :
    (Query.fallbackQ u ∈ (ariesBuild cfg env passedID qs urlStr resp tr).2)
      ↔ Query.fallbackQ u ∈ tr := by
  by_cases hgt : resp.response.numFound > 1
  · simp [ariesBuild, hgt]
  · cases hd : resp.response.docs with
    | nil => simp [ariesBuild, hgt, hd]
    | cons d tail =>
      cases hm : d.model with
      | nil => simp [ariesBuild, hgt, hd, hm]
      | cons m ms =>
        by_cases hmo : m = "MediaObject"
        · simp [ariesBuild, hgt, hd, hm, hmo]
        · cases hp : d.partOf with
          | nil => simp [ariesBuild, hgt, hd, hm, hmo, hp]
          | cons p ps => simp [ariesBuild, hgt, hd, hm, hmo, hp]

/-- If the build phase produced a JSON result, the too-many-hits guard
was passed, so the response's hit count is at most one. -/
theorem ariesBuild_json_le_one (cfg : Config) (env : Env) (passedID qs urlStr : String)
    (resp : SolrFullResponse) (tr : List Query) (s : Nat) (out : Aries)
    (h : (ariesBuild cfg env passedID qs urlStr resp tr).1 = .json s out) :
    resp.response.numFound ≤ 1 := by
  by_contra hgt
  rw [not_le] at hgt
  unfold ariesBuild at h
  rw [if_pos hgt] at h
  exact absurd h (by simp)

/-- A JSON result of the build phase carries status 200 and exactly one
service descriptor, built from the query string `qs` that retrieved the
record. -/
theorem ariesBuild_json_service (cfg : Config) (env : Env) (passedID qs urlStr : String)
    (resp : SolrFullResponse) (tr : List Query) (s : Nat) (out : Aries)
    (h : (ariesBuild cfg env passedID qs urlStr resp tr).1 = .json s out) :
    s = 200 ∧ out.serviceURL
      = [{ url := cfg.solrURL ++ "/" ++ cfg.solrCore ++ "/select?q=" ++ qs,
           protocol := "avalon-index" }] := by
  by_cases hgt : resp.response.numFound > 1
  · simp [ariesBuild, hgt] at h
  · cases hd : resp.response.docs with
    | nil => simp [ariesBuild, hgt, hd] at h
    | cons d tail =>
      cases hm : d.model with
      | nil => simp [ariesBuild, hgt, hd, hm] at h
      | cons m ms =>
        by_cases hmo : m = "MediaObject"
        · simp [ariesBuild, hgt, hd, hm, hmo] at h
          obtain ⟨h1, h2⟩ := h
          subst h1
          subst h2
          exact ⟨rfl, rfl⟩
        · cases hp : d.partOf with
          | nil => simp [ariesBuild, hgt, hd, hm, hmo, hp] at h
          | cons p ps =>
            simp [ariesBuild, hgt, hd, hm, hmo, hp] at h
            obtain ⟨h1, h2⟩ := h
            subst h1
            subst h2
            exact ⟨rfl, rfl⟩

/-- Field shape of any JSON result of the build phase, in terms of the
first document of the response it was given. -/
theorem ariesBuild_json_shape (cfg : Config) (env : Env) (passedID qs urlStr : String)
    (resp : SolrFullResponse) (tr : List Query) (s : Nat) (out : Aries)
    (doc : SolrDoc) (rest : List SolrDoc)
    (hdocs : resp.response.docs = doc :: rest)
    (h : (ariesBuild cfg env passedID qs urlStr resp tr).1 = .json s out) :
    out.identifiers = doc.id :: doc.identifierSSIM
    ∧ out.masterFile = (if doc.fileLocation ≠ "" then [doc.fileLocation] else [])
    ∧ (doc.model.headD "" = "MediaObject" →
        out.metadataURL = [cfg.avalonURL ++ "/media_objects/" ++ doc.id ++ "/content/descMetadata"]
        ∧ out.accessURL = [cfg.avalonURL ++ "/media_objects/" ++ doc.id]
        ∧ out.adminURL = [cfg.avalonURL ++ "/media_objects/" ++ doc.id ++ "/edit"]
        ∧ out.derivativeFile = [])
    ∧ (doc.model.headD "" ≠ "MediaObject" →
        out.metadataURL = []
        ∧ out.accessURL = [cfg.avalonURL ++ "/media_objects/" ++ doc.partOf.headD "" ++ "/section/" ++ doc.id]
        ∧ out.adminURL = [cfg.avalonURL ++ "/media_objects/" ++ doc.partOf.headD "" ++ "/section/" ++ doc.id ++ "/edit"]) := by
  by_cases hgt : resp.response.numFound > 1
  · simp [ariesBuild, hgt] at h
  · cases hm : doc.model with
    | nil => simp [ariesBuild, hgt, hdocs, hm] at h
    | cons m ms =>
      by_cases hmo : m = "MediaObject"
      · simp [ariesBuild, hgt, hdocs, hm, hmo] at h
        obtain ⟨h1, h2⟩ := h
        subst h1
        subst h2
        simp [hm, hmo]
      · cases hp : doc.partOf with
        | nil => simp [ariesBuild, hgt, hdocs, hm, hmo, hp] at h
        | cons p ps =>
          simp [ariesBuild, hgt, hdocs, hm, hmo, hp] at h
          obtain ⟨h1, h2⟩ := h
          subst h1
          subst h2
          simp [hm, hmo, hp]

/-- A 200 response makes the error-discarding fetch return the body. -/
theorem fetchIgnoringError_ok (world : String → HTTPResult) (url b : String)
    (h : world url = .response 200 b) : fetchIgnoringError world url = b := by
  simp [fetchIgnoringError, getAPIResponse, h]

/-- Any non-200 outcome makes the error-discarding fetch return the
empty string, which no JSON unmarshal accepts. -/
theorem fetchIgnoringError_fail (world : String → HTTPResult) (url : String)
    (h : ∀ b, world url ≠ .response 200 b) : fetchIgnoringError world url = "" := by
  unfold fetchIgnoringError getAPIResponse
  cases hw : world url with
  | transportErr m => rfl
  | response sc b =>
    have hsc : sc ≠ 200 := by
      intro he
      exact h b (by rw [← he]; exact hw)
    simp [hsc]

/-- Collecting the non-empty derivative-file fields and then reading
them off is the same as reading all fields off and dropping the empty
ones: the code's filter-then-map in upstream order. -/
theorem derivative_filter_map (l : List SolrDoc) (p : String → Bool) :
    (l.filter (fun d => p d.derivativeFile)).map (fun d => d.derivativeFile)
      = (l.map (fun d => d.derivativeFile)).filter p := by
  induction l with
  | nil => rfl
  | cons d t ih =>
    simp only [List.map_cons, List.filter_cons]
    by_cases h : p d.derivativeFile <;> simp [h, ih]

/-- The derivative-file list of a member-record JSON result is computed
from the best-effort derivative query: empty when that query's body
does not parse, otherwise the non-empty derivative-file fields of its
documents in order. -/
theorem ariesBuild_json_deriv (cfg : Config) (env : Env) (passedID qs urlStr : String)
    (resp : SolrFullResponse) (tr : List Query) (s : Nat) (out : Aries)
    (doc : SolrDoc) (rest : List SolrDoc) (m : String) (ms : List String)
    (hdocs : resp.response.docs = doc :: rest)
    (hm : doc.model = m :: ms)
    (hmo : m ≠ "MediaObject")
    (h : (ariesBuild cfg env passedID qs urlStr resp tr).1 = .json s out) :
    out.derivativeFile
      = (match env.parse (fetchIgnoringError env.world (derivativeURL cfg env doc.id)) with
        | none => []
        | some r =>
          (r.response.docs.filter (fun d => d.derivativeFile ≠ "")).map
            (fun d => d.derivativeFile)) := by
  by_cases hgt : resp.response.numFound > 1
  · simp [ariesBuild, hgt] at h
  · cases hp : doc.partOf with
    | nil => simp [ariesBuild, hgt, hdocs, hm, hmo, hp] at h
    | cons p ps =>
      simp [ariesBuild, hgt, hdocs, hm, hmo, hp] at h
      obtain ⟨h1, h2⟩ := h
      subst h2
      simp only [ne_eq, decide_not]

/-- For a well-shaped first document (non-empty model list, and a
parent reference when the record is not a `MediaObject`) that passed
the hit-count guards, the build phase always returns HTTP 200 JSON. -/
theorem ariesBuild_wf_json (cfg : Config) (env : Env) (passedID qs urlStr : String)
    (resp : SolrFullResponse) (tr : List Query) (doc : SolrDoc) (rest : List SolrDoc)
    (hle : ¬ resp.response.numFound > 1)
    (hdocs : resp.response.docs = doc :: rest)
    (hmodel : doc.model ≠ [])
    (hwf : doc.model.headD "" ≠ "MediaObject" → doc.partOf ≠ []) :
    ∃ out, (ariesBuild cfg env passedID qs urlStr resp tr).1 = .json 200 out := by
  cases hm : doc.model with
  | nil => exact absurd hm hmodel
  | cons m ms =>
    by_cases hmo : m = "MediaObject"
    · simp [ariesBuild, hle, hdocs, hm, hmo]
    · cases hp : doc.partOf with
      | nil =>
        refine absurd hp (hwf ?_)
        simp [hm, hmo]
      | cons p ps =>
        simp [ariesBuild, hle, hdocs, hm, hmo, hp]

/-! Concrete fixtures used by the example theorem and the witnesses. -/

/-- A concrete configuration for concrete-input theorems. -/
def wCfg : Config :=
  { solrURL := "http://solr", solrCore := "avalon", avalonURL := "http://avalon" }

/-- The container record of the spec's worked example: ID `abc123`,
model `MediaObject`, no alternates, no file location. -/
def docC5 : SolrDoc := { id := "abc123", model := ["MediaObject"] }

/-- A one-hit solr response holding `docC5`. -/
def respC5 : SolrFullResponse := { response := { numFound := 1, docs := [docC5] } }

/-- The primary query URL for `abc123` under `wCfg` with identity escaping. -/
def urlC5 : String := selectURL wCfg "id:\x22abc123\x22" lookupFL

/-- A world in which only the primary `abc123` query answers, with a
body that parses to `respC5`. -/
def envC5 : Env :=
  { world := fun u => if u = urlC5 then .response 200 "bodyC5" else .transportErr "unreachable",
    parse := fun s => if s = "bodyC5" then some respC5 else none,
    escape := fun s => s,
    parse_empty := by decide }

/-- C5: the identifier `abc123` matching exactly one container
(`MediaObject`) record with ID `abc123` and no alternate identifiers
resolves to `Identifiers == ["abc123"]`,
`AccessURL == ["{catalog}/media_objects/abc123"]`,
`AdminURL == ["{catalog}/media_objects/abc123/edit"]`,
`MetadataURL == ["{catalog}/media_objects/abc123/content/descMetadata"]`,
and the query trace is the primary query alone, so no derivative-file
query is attempted for a container record. -/
theorem c5_container_example :
    ariesLookupT wCfg envC5 "abc123"
      = (AriesOutcome.json 200
          { identifiers := ["abc123"],
            serviceURL := [{ url := "http://solr/avalon/select?q=id:\x22abc123\x22",
                             protocol := "avalon-index" }],
            accessURL := ["http://avalon/media_objects/abc123"],
            adminURL := ["http://avalon/media_objects/abc123/edit"],
            metadataURL := ["http://avalon/media_objects/abc123/content/descMetadata"],
            masterFile := [],
            derivativeFile := [] },
        [Query.primaryQ urlC5]) := by
  decide

/-- The resolution result of the `abc123` example, used to instantiate
universally quantified claim theorems at a concrete input. -/
def outC5 : Aries :=
  { identifiers := ["abc123"],
    serviceURL := [{ url := "http://solr/avalon/select?q=id:\x22abc123\x22",
                     protocol := "avalon-index" }],
    accessURL := ["http://avalon/media_objects/abc123"],
    adminURL := ["http://avalon/media_objects/abc123/edit"],
    metadataURL := ["http://avalon/media_objects/abc123/content/descMetadata"] }

/-- C1: for every identifier whose primary exact-ID query returns
exactly one matching record, the ResolutionResult's identifier list is
the record's ID first, followed by all of the record's alternate
identifiers in the order returned by the index, so `Identifiers[0]`
equals the record's ID. -/
theorem c1_identifier_list_order (cfg : Config) (env : Env)
    (passedID body : String) (resp : SolrFullResponse) (doc : SolrDoc)
    (rest : List SolrDoc)
    (hfetch : env.world (primaryURL cfg env passedID) = .response 200 body)
    (hparse : env.parse body = some resp)
    (hone : resp.response.numFound = 1)
    (hdocs : resp.response.docs = doc :: rest) :
    ∀ s out, (ariesLookupT cfg env passedID).1 = .json s out →
      out.identifiers = doc.id :: doc.identifierSSIM := by
  intro s out h
  rw [ariesLookupT_primary_hit cfg env passedID body resp hfetch hparse
    (by rw [hone]; decide)] at h
  exact (ariesBuild_json_shape cfg env passedID (primaryQS env passedID)
    (primaryURL cfg env passedID) resp [Query.primaryQ (primaryURL cfg env passedID)]
    s out doc rest hdocs h).1

/-- Witness for C1 at the concrete `abc123` container example. -/
theorem c1_identifier_list_order_witness :
    outC5.identifiers = docC5.id :: docC5.identifierSSIM :=
  c1_identifier_list_order wCfg envC5 "abc123" "bodyC5" respC5 docC5 []
    (by decide) (by decide) (by decide) (by decide) 200 outC5 (by decide)

/-- C7 (amended): for every single matched record whose model list is
non-empty and which, when its first model entry is not `MediaObject`,
has at least one parent-container reference, response derivation is
total (an HTTP 200 JSON result, no out-of-bounds read): the container
branch is taken exactly when the first model entry is `MediaObject`,
and otherwise the first parent reference and the record's own ID are
substituted into the nested access and administrative URL templates
with no metadata URL produced. -/
theorem c7_branch_totality (cfg : Config) (env : Env)
    (passedID body : String) (resp : SolrFullResponse) (doc : SolrDoc)
    (rest : List SolrDoc)
    (hfetch : env.world (primaryURL cfg env passedID) = .response 200 body)
    (hparse : env.parse body = some resp)
    (hone : resp.response.numFound = 1)
    (hdocs : resp.response.docs = doc :: rest)
    (hmodel : doc.model ≠ [])
    (hwf : doc.model.headD "" ≠ "MediaObject" → doc.partOf ≠ []) :
    ((ariesLookupT cfg env passedID).1).isSuccess = true
    ∧ ∀ s out, (ariesLookupT cfg env passedID).1 = .json s out →
        (doc.model.headD "" = "MediaObject" →
          out.metadataURL = [cfg.avalonURL ++ "/media_objects/" ++ doc.id ++ "/content/descMetadata"]
          ∧ out.accessURL = [cfg.avalonURL ++ "/media_objects/" ++ doc.id]
          ∧ out.adminURL = [cfg.avalonURL ++ "/media_objects/" ++ doc.id ++ "/edit"])
        ∧ (doc.model.headD "" ≠ "MediaObject" →
          out.metadataURL = []
          ∧ out.accessURL = [cfg.avalonURL ++ "/media_objects/" ++ doc.partOf.headD "" ++ "/section/" ++ doc.id]
          ∧ out.adminURL = [cfg.avalonURL ++ "/media_objects/" ++ doc.partOf.headD "" ++ "/section/" ++ doc.id ++ "/edit"]) := by
  rw [ariesLookupT_primary_hit cfg env passedID body resp hfetch hparse
    (by rw [hone]; decide)]
  constructor
  · obtain ⟨out, hout⟩ := ariesBuild_wf_json cfg env passedID (primaryQS env passedID)
      (primaryURL cfg env passedID) resp [Query.primaryQ (primaryURL cfg env passedID)]
      doc rest (by rw [hone]; decide) hdocs hmodel hwf
    rw [hout]
    rfl
  · intro s out h
    have hs := ariesBuild_json_shape cfg env passedID (primaryQS env passedID)
      (primaryURL cfg env passedID) resp [Query.primaryQ (primaryURL cfg env passedID)]
      s out doc rest hdocs h
    exact ⟨fun hc => ⟨(hs.2.2.1 hc).1, (hs.2.2.1 hc).2.1, (hs.2.2.1 hc).2.2.1⟩, hs.2.2.2⟩

/-- Witness for the amended C7 at the concrete `abc123` container
example. -/
theorem c7_branch_totality_witness :
    ((ariesLookupT wCfg envC5 "abc123").1).isSuccess = true
      ∧ (outC5.metadataURL = ["http://avalon/media_objects/abc123/content/descMetadata"]
          ∧ outC5.accessURL = ["http://avalon/media_objects/abc123"]
          ∧ outC5.adminURL = ["http://avalon/media_objects/abc123/edit"]) := by
  obtain ⟨h1, h2⟩ := c7_branch_totality wCfg envC5 "abc123" "bodyC5" respC5 docC5 []
    (by decide) (by decide) (by decide) (by decide) (by decide) (by decide)
  exact ⟨h1, (h2 200 outC5 (by decide)).1 (by decide)⟩

/-- The record of the C7 counterexample: one matching record whose
model list is empty. -/
def docC7 : SolrDoc := { id := "noModel" }

/-- A one-hit response holding `docC7`. -/
def respC7 : SolrFullResponse := { response := { numFound := 1, docs := [docC7] } }

/-- The primary query URL for `noModel` under `wCfg`. -/
def urlC7 : String := selectURL wCfg "id:\x22noModel\x22" lookupFL

/-- A world in which `noModel` has exactly one match, `docC7`. -/
def envC7 : Env :=
  { world := fun u => if u = urlC7 then .response 200 "bodyC7" else .transportErr "unreachable",
    parse := fun s => if s = "bodyC7" then some respC7 else none,
    escape := fun s => s,
    parse_empty := by decide }

/-- C7 counterexample: an identifier with exactly one matched record
whose model list is empty makes response derivation read `Model[0]` out
of bounds — the handler panics instead of deriving a response, so
derivation is not total for every matched record. -/
theorem c7_empty_model_out_of_bounds :
    (ariesLookupT wCfg envC7 "noModel").1
      = AriesOutcome.crash "index out of range: Model[0]" := by
  decide

/-- C2: the fallback alternate-identifier query is issued if and only
if the primary exact-ID query returned zero matches; an identifier with
zero primary matches but exactly one (well-shaped) alternate-identifier
match resolves successfully via the fallback query; and when both
queries return zero matches the caller gets the 404 not-found reply. -/
theorem c2_fallback_strategy (cfg : Config) (env : Env) (passedID body : String)
    (resp : SolrFullResponse)
    (hfetch : env.world (primaryURL cfg env passedID) = .response 200 body)
    (hparse : env.parse body = some resp) :
    ((∃ u, Query.fallbackQ u ∈ (ariesLookupT cfg env passedID).2)
      ↔ resp.response.numFound = 0)
    ∧ (∀ body2 resp2 doc rest, resp.response.numFound = 0 →
        env.world (fallbackURL cfg env passedID) = .response 200 body2 →
        env.parse body2 = some resp2 →
        resp2.response.numFound = 1 →
        resp2.response.docs = doc :: rest →
        doc.model ≠ [] →
        (doc.model.headD "" ≠ "MediaObject" → doc.partOf ≠ []) →
        ((ariesLookupT cfg env passedID).1).isSuccess = true)
    ∧ (∀ body2 resp2, resp.response.numFound = 0 →
        env.world (fallbackURL cfg env passedID) = .response 200 body2 →
        env.parse body2 = some resp2 →
        resp2.response.numFound = 0 →
        (ariesLookupT cfg env passedID).1 = .text 404 (passedID ++ " not found")) := by
  refine ⟨?_, ?_, ?_⟩
  · by_cases h0 : resp.response.numFound = 0
    · rw [ariesLookupT_fallback cfg env passedID body resp hfetch hparse h0]
      refine ⟨fun _ => h0, fun _ => ?_⟩
      cases hp2 : env.parse (fetchIgnoringError env.world (fallbackURL cfg env passedID)) with
      | none => exact ⟨fallbackURL cfg env passedID, by simp⟩
      | some resp2 =>
        by_cases h20 : resp2.response.numFound = 0
        · exact ⟨fallbackURL cfg env passedID, by simp [h20]⟩
        · exact ⟨fallbackURL cfg env passedID, by simp [h20, ariesBuild_fallback_mem]⟩
    · rw [ariesLookupT_primary_hit cfg env passedID body resp hfetch hparse h0]
      constructor
      · rintro ⟨u, hu⟩
        rw [ariesBuild_fallback_mem] at hu
        simp at hu
      · intro h
        exact absurd h h0
  · intro body2 resp2 doc rest h0 hw2 hp2 h21 hdocs2 hmodel2 hwf2
    rw [ariesLookupT_fallback cfg env passedID body resp hfetch hparse h0]
    rw [fetchIgnoringError_ok env.world (fallbackURL cfg env passedID) body2 hw2, hp2]
    obtain ⟨out, hout⟩ := ariesBuild_wf_json cfg env passedID (fallbackQS env passedID)
      (fallbackURL cfg env passedID) resp2
      [Query.primaryQ (primaryURL cfg env passedID),
       Query.fallbackQ (fallbackURL cfg env passedID)]
      doc rest (by rw [h21]; decide) hdocs2 hmodel2 hwf2
    simp [h21, hout, AriesOutcome.isSuccess]
  · intro body2 resp2 h0 hw2 hp2 h20
    rw [ariesLookupT_fallback cfg env passedID body resp hfetch hparse h0]
    rw [fetchIgnoringError_ok env.world (fallbackURL cfg env passedID) body2 hw2, hp2]
    simp [h20]

/-- The record found only through the fallback query in the C2
witness: its canonical ID differs from the looked-up identifier, which
appears among its alternate identifiers. -/
def docC2 : SolrDoc := { id := "real1", model := ["MediaObject"], identifierSSIM := ["alt9"] }

/-- A zero-hit solr response. -/
def respZero : SolrFullResponse := {}

/-- A one-hit response holding `docC2`. -/
def respC2 : SolrFullResponse := { response := { numFound := 1, docs := [docC2] } }

/-- The primary query URL for `alt9` under `wCfg`. -/
def purlC2 : String := selectURL wCfg "id:\x22alt9\x22" lookupFL

/-- The fallback query URL for `alt9` under `wCfg`. -/
def furlC2 : String := selectURL wCfg "identifier_ssim:\x22alt9\x22" lookupFL

/-- A world in which the primary query for `alt9` has zero hits and the
fallback query finds exactly `docC2`. -/
def envC2 : Env :=
  { world := fun u =>
      if u = purlC2 then .response 200 "pbody0"
      else if u = furlC2 then .response 200 "fbody1"
      else .transportErr "unreachable",
    parse := fun s =>
      if s = "pbody0" then some respZero
      else if s = "fbody1" then some respC2
      else none,
    escape := fun s => s,
    parse_empty := by decide }

/-- Witness for C2: the concrete identifier `alt9` has zero primary
matches and exactly one fallback match, and resolution succeeds. -/
theorem c2_fallback_strategy_witness :
    ((ariesLookupT wCfg envC2 "alt9").1).isSuccess = true :=
  (c2_fallback_strategy wCfg envC2 "alt9" "pbody0" respZero
      (by decide) (by decide)).2.1
    "fbody1" respC2 docC2 [] (by decide) (by decide) (by decide) (by decide) (by decide)
    (by decide) (by decide)

/-- C3: a post-fallback match count greater than one yields HTTP 400
whose message contains the query URL that triggered it, and a
ResolutionResult is only constructed when the query that supplied the
record reported a hit count that is not zero, at most one, and hence
exactly one whenever the index reports a non-negative count. -/
theorem c3_ambiguous_and_uniqueness (cfg : Config) (env : Env) (passedID body : String)
    (resp : SolrFullResponse)
    (hfetch : env.world (primaryURL cfg env passedID) = .response 200 body)
    (hparse : env.parse body = some resp) :
    (resp.response.numFound > 1 →
      (ariesLookupT cfg env passedID).1
        = .text 400 (passedID ++ " has too many hits. Query: " ++ primaryURL cfg env passedID))
    ∧ (∀ body2 resp2, resp.response.numFound = 0 →
        env.world (fallbackURL cfg env passedID) = .response 200 body2 →
        env.parse body2 = some resp2 →
        resp2.response.numFound > 1 →
        (ariesLookupT cfg env passedID).1
          = .text 400 (passedID ++ " has too many hits. Query: " ++ fallbackURL cfg env passedID))
    ∧ (∀ s out, (ariesLookupT cfg env passedID).1 = .json s out →
        (resp.response.numFound ≠ 0 ∧ resp.response.numFound ≤ 1
          ∧ (0 ≤ resp.response.numFound → resp.response.numFound = 1))
        ∨ (resp.response.numFound = 0
          ∧ ∃ resp2,
              env.parse (fetchIgnoringError env.world (fallbackURL cfg env passedID)) = some resp2
              ∧ resp2.response.numFound ≠ 0 ∧ resp2.response.numFound ≤ 1
              ∧ (0 ≤ resp2.response.numFound → resp2.response.numFound = 1))) := by
  refine ⟨?_, ?_, ?_⟩
  · intro hgt
    rw [ariesLookupT_primary_hit cfg env passedID body resp hfetch hparse (by omega)]
    simp [ariesBuild, hgt]
  · intro body2 resp2 h0 hw2 hp2 hgt2
    rw [ariesLookupT_fallback cfg env passedID body resp hfetch hparse h0]
    rw [fetchIgnoringError_ok env.world (fallbackURL cfg env passedID) body2 hw2, hp2]
    have h20 : resp2.response.numFound ≠ 0 := by omega
    simp [h20, ariesBuild, hgt2]
  · intro s out h
    by_cases h0 : resp.response.numFound = 0
    · rw [ariesLookupT_fallback cfg env passedID body resp hfetch hparse h0] at h
      cases hp2 : env.parse (fetchIgnoringError env.world (fallbackURL cfg env passedID)) with
      | none =>
        rw [hp2] at h
        simp at h
      | some resp2 =>
        rw [hp2] at h
        by_cases h20 : resp2.response.numFound = 0
        · simp [h20] at h
        · simp [h20] at h
          have hle := ariesBuild_json_le_one cfg env passedID (fallbackQS env passedID)
            (fallbackURL cfg env passedID) resp2
            [Query.primaryQ (primaryURL cfg env passedID),
             Query.fallbackQ (fallbackURL cfg env passedID)] s out h
          exact Or.inr ⟨h0, resp2, rfl, h20, hle, by omega⟩
    · rw [ariesLookupT_primary_hit cfg env passedID body resp hfetch hparse h0] at h
      have hle := ariesBuild_json_le_one cfg env passedID (primaryQS env passedID)
        (primaryURL cfg env passedID) resp
        [Query.primaryQ (primaryURL cfg env passedID)] s out h
      exact Or.inl ⟨h0, hle, by omega⟩

/-- A two-hit solr response making the identifier ambiguous. -/
def respAmb : SolrFullResponse := { response := { numFound := 2, docs := [docC5, docC7] } }

/-- The primary query URL for `dup` under `wCfg`. -/
def urlAmb : String := selectURL wCfg "id:\x22dup\x22" lookupFL

/-- A world in which the identifier `dup` matches two records. -/
def envAmb : Env :=
  { world := fun u => if u = urlAmb then .response 200 "bodyAmb" else .transportErr "unreachable",
    parse := fun s => if s = "bodyAmb" then some respAmb else none,
    escape := fun s => s,
    parse_empty := by decide }

/-- Witness for C3: the concrete identifier `dup` with two matches gets
the HTTP 400 too-many-hits reply naming the primary query URL. -/
theorem c3_ambiguous_and_uniqueness_witness :
    (ariesLookupT wCfg envAmb "dup").1
      = AriesOutcome.text 400 ("dup" ++ " has too many hits. Query: " ++ primaryURL wCfg envAmb "dup") :=
  (c3_ambiguous_and_uniqueness wCfg envAmb "dup" "bodyAmb" respAmb
    (by decide) (by decide)).1 (by decide)

/-- C4 (amended): a primary-query failure is mapped to HTTP 404, with
the underlying error text as the response body for transport errors
(including timeouts) and for non-2xx statuses (whose upstream body
becomes the error text), and with the fixed `"{id} not found"` body
only when the primary response body does not parse. -/
theorem c4_upstream_error_mapping (cfg : Config) (env : Env) (passedID : String) :
    (∀ e, env.world (primaryURL cfg env passedID) = .transportErr e →
      (ariesLookupT cfg env passedID).1 = .text 404 e)
    ∧ (∀ sc b, env.world (primaryURL cfg env passedID) = .response sc b → sc ≠ 200 →
      (ariesLookupT cfg env passedID).1 = .text 404 b)
    ∧ (∀ b, env.world (primaryURL cfg env passedID) = .response 200 b →
      env.parse b = none →
      (ariesLookupT cfg env passedID).1 = .text 404 (passedID ++ " not found")) := by
  refine ⟨?_, ?_, ?_⟩
  · intro e he
    unfold ariesLookupT
    simp [getAPIResponse, he]
  · intro sc b hw hsc
    unfold ariesLookupT
    simp [getAPIResponse, hw, hsc]
  · intro b hw hpn
    unfold ariesLookupT
    simp [getAPIResponse, hw, hpn]

/-- A world in which every outbound call fails at the transport level. -/
def envC4 : Env :=
  { world := fun _ => .transportErr "connection refused",
    parse := fun _ => none,
    escape := fun s => s,
    parse_empty := rfl }

/-- C4 counterexample: when the primary query fails with a transport
error, the caller's 404 body is the underlying error text, not a
"not found" message. -/
theorem c4_transport_error_body_leaks :
    (ariesLookupT wCfg envC4 "x").1 = AriesOutcome.text 404 "connection refused"
      ∧ AriesOutcome.text 404 "connection refused"
          ≠ AriesOutcome.text 404 ("x" ++ " not found") := by
  refine ⟨?_, by decide⟩
  decide

/-- Witness for the amended C4 at a concrete all-failing world. -/
theorem c4_upstream_error_mapping_witness :
    (ariesLookupT wCfg envC4 "y").1 = AriesOutcome.text 404 "connection refused" :=
  (c4_upstream_error_mapping wCfg envC4 "y").1 "connection refused" (by decide)

/-- C6: a member-type record resolves successfully whatever the
best-effort derivative query does; when that query parses, the
derivative-file list is exactly the non-empty derivative-file fields of
its documents in upstream response order (empty fields contribute
nothing, so the length is the number of documents with a non-empty
field); when the query fails at transport level or its body does not
parse, the derivative-file list is empty and resolution still
succeeds. -/
theorem c6_member_derivative_files (cfg : Config) (env : Env) (passedID body : String)
    (resp : SolrFullResponse) (doc : SolrDoc) (rest : List SolrDoc)
    (m : String) (mrest : List String) (parent : String) (prest : List String)
    (hfetch : env.world (primaryURL cfg env passedID) = .response 200 body)
    (hparse : env.parse body = some resp)
    (hone : resp.response.numFound = 1)
    (hdocs : resp.response.docs = doc :: rest)
    (hm : doc.model = m :: mrest)
    (hmo : m ≠ "MediaObject")
    (hp : doc.partOf = parent :: prest) :
    ((ariesLookupT cfg env passedID).1).isSuccess = true
    ∧ (∀ dbody r2, env.world (derivativeURL cfg env doc.id) = .response 200 dbody →
        env.parse dbody = some r2 →
        ∀ s out, (ariesLookupT cfg env passedID).1 = .json s out →
          out.derivativeFile
              = (r2.response.docs.map (fun d => d.derivativeFile)).filter (fun v => v ≠ "")
          ∧ out.derivativeFile.length
              = (r2.response.docs.filter (fun d => d.derivativeFile ≠ "")).length)
    ∧ ((∀ b, env.world (derivativeURL cfg env doc.id) ≠ .response 200 b) →
        ∀ s out, (ariesLookupT cfg env passedID).1 = .json s out →
          out.derivativeFile = [])
    ∧ (∀ dbody, env.world (derivativeURL cfg env doc.id) = .response 200 dbody →
        env.parse dbody = none →
        ∀ s out, (ariesLookupT cfg env passedID).1 = .json s out →
          out.derivativeFile = []) := by
  rw [ariesLookupT_primary_hit cfg env passedID body resp hfetch hparse
    (by rw [hone]; decide)]
  refine ⟨?_, ?_, ?_, ?_⟩
  · obtain ⟨out, hout⟩ := ariesBuild_wf_json cfg env passedID (primaryQS env passedID)
      (primaryURL cfg env passedID) resp [Query.primaryQ (primaryURL cfg env passedID)]
      doc rest (by rw [hone]; decide) hdocs (by rw [hm]; simp)
      (fun _ => by rw [hp]; simp)
    rw [hout]
    rfl
  · intro dbody r2 hw hp2 s out h
    have hd := ariesBuild_json_deriv cfg env passedID (primaryQS env passedID)
      (primaryURL cfg env passedID) resp [Query.primaryQ (primaryURL cfg env passedID)]
      s out doc rest m mrest hdocs hm hmo h
    rw [fetchIgnoringError_ok env.world (derivativeURL cfg env doc.id) dbody hw, hp2] at hd
    constructor
    · rw [hd]
      exact derivative_filter_map r2.response.docs (fun v => v ≠ "")
    · rw [hd]
      simp [List.length_map]
  · intro hfail s out h
    have hd := ariesBuild_json_deriv cfg env passedID (primaryQS env passedID)
      (primaryURL cfg env passedID) resp [Query.primaryQ (primaryURL cfg env passedID)]
      s out doc rest m mrest hdocs hm hmo h
    rw [fetchIgnoringError_fail env.world (derivativeURL cfg env doc.id) hfail,
      env.parse_empty] at hd
    exact hd
  · intro dbody hw hpn s out h
    have hd := ariesBuild_json_deriv cfg env passedID (primaryQS env passedID)
      (primaryURL cfg env passedID) resp [Query.primaryQ (primaryURL cfg env passedID)]
      s out doc rest m mrest hdocs hm hmo h
    rw [fetchIgnoringError_ok env.world (derivativeURL cfg env doc.id) dbody hw, hpn] at hd
    exact hd

/-- The member record of the C6 witness: a `MasterFile` nested under
the container `abc123`. -/
def docC6 : SolrDoc := { id := "part1", model := ["MasterFile"], partOf := ["abc123"] }

/-- A one-hit response holding `docC6`. -/
def respC6 : SolrFullResponse := { response := { numFound := 1, docs := [docC6] } }

/-- A derivative record with a non-empty derivative-file field. -/
def ddoc1 : SolrDoc := { id := "d1", derivativeFile := "file1.mp4" }

/-- A derivative record with an empty derivative-file field. -/
def ddoc2 : SolrDoc := { id := "d2" }

/-- The derivative query's two-document response: only `ddoc1`
contributes a derivative file. -/
def drespC6 : SolrFullResponse := { response := { numFound := 2, docs := [ddoc1, ddoc2] } }

/-- The primary query URL for `part1` under `wCfg`. -/
def urlC6 : String := selectURL wCfg "id:\x22part1\x22" lookupFL

/-- The derivative query URL for `part1` under `wCfg`. -/
def durlC6 : String := selectURL wCfg "isDerivationOf_ssim:\x22part1\x22" "&fl=id,derivativeFile_ssi"

/-- A world resolving `part1` to `docC6` and its derivative query to
`drespC6`. -/
def envC6 : Env :=
  { world := fun u =>
      if u = urlC6 then .response 200 "bodyC6"
      else if u = durlC6 then .response 200 "dbodyC6"
      else .transportErr "unreachable",
    parse := fun v =>
      if v = "bodyC6" then some respC6
      else if v = "dbodyC6" then some drespC6
      else none,
    escape := fun v => v,
    parse_empty := by decide }

/-- The expected resolution result for `part1` under `envC6`. -/
def outC6 : Aries :=
  { identifiers := ["part1"],
    serviceURL := [{ url := "http://solr/avalon/select?q=id:\x22part1\x22",
                     protocol := "avalon-index" }],
    accessURL := ["http://avalon/media_objects/abc123/section/part1"],
    adminURL := ["http://avalon/media_objects/abc123/section/part1/edit"],
    derivativeFile := ["file1.mp4"] }

/-- Witness for C6 at the concrete member record `part1` whose
derivative query returns one non-empty and one empty field. -/
theorem c6_member_derivative_files_witness :
    ((ariesLookupT wCfg envC6 "part1").1).isSuccess = true
      ∧ outC6.derivativeFile
          = (drespC6.response.docs.map (fun d => d.derivativeFile)).filter (fun v => v ≠ "")
      ∧ outC6.derivativeFile.length
          = (drespC6.response.docs.filter (fun d => d.derivativeFile ≠ "")).length := by
  obtain ⟨h1, h2, -, -⟩ := c6_member_derivative_files wCfg envC6 "part1" "bodyC6" respC6
    docC6 [] "MasterFile" [] "abc123" [] (by decide) (by decide) (by decide) (by decide)
    (by decide) (by decide) (by decide)
  exact ⟨h1, h2 "dbodyC6" drespC6 (by decide) (by decide) 200 outC6 (by decide)⟩

/-- C8: every successful resolution carries exactly one service
descriptor with the fixed `avalon-index` protocol label, whose URL is
built from the exact query string used to retrieve the record — the
fallback query string when the fallback was used, otherwise the
primary query string. -/
theorem c8_service_descriptor (cfg : Config) (env : Env) (passedID body : String)
    (resp : SolrFullResponse)
    (hfetch : env.world (primaryURL cfg env passedID) = .response 200 body)
    (hparse : env.parse body = some resp) :
    (resp.response.numFound ≠ 0 →
      ∀ s out, (ariesLookupT cfg env passedID).1 = .json s out →
        s = 200 ∧ out.serviceURL
          = [{ url := cfg.solrURL ++ "/" ++ cfg.solrCore ++ "/select?q=" ++ primaryQS env passedID,
               protocol := "avalon-index" }])
    ∧ (resp.response.numFound = 0 →
      ∀ s out, (ariesLookupT cfg env passedID).1 = .json s out →
        s = 200 ∧ out.serviceURL
          = [{ url := cfg.solrURL ++ "/" ++ cfg.solrCore ++ "/select?q=" ++ fallbackQS env passedID,
               protocol := "avalon-index" }]) := by
  constructor
  · intro h0 s out h
    rw [ariesLookupT_primary_hit cfg env passedID body resp hfetch hparse h0] at h
    exact ariesBuild_json_service cfg env passedID (primaryQS env passedID)
      (primaryURL cfg env passedID) resp [Query.primaryQ (primaryURL cfg env passedID)]
      s out h
  · intro h0 s out h
    rw [ariesLookupT_fallback cfg env passedID body resp hfetch hparse h0] at h
    cases hp2 : env.parse (fetchIgnoringError env.world (fallbackURL cfg env passedID)) with
    | none =>
      rw [hp2] at h
      simp at h
    | some resp2 =>
      rw [hp2] at h
      by_cases h20 : resp2.response.numFound = 0
      · simp [h20] at h
      · simp [h20] at h
        exact ariesBuild_json_service cfg env passedID (fallbackQS env passedID)
          (fallbackURL cfg env passedID) resp2
          [Query.primaryQ (primaryURL cfg env passedID),
           Query.fallbackQ (fallbackURL cfg env passedID)] s out h

/-- Witness for C8 at the concrete `abc123` container example. -/
theorem c8_service_descriptor_witness :
    (200 : Nat) = 200
      ∧ outC5.serviceURL
          = [{ url := wCfg.solrURL ++ "/" ++ wCfg.solrCore ++ "/select?q=" ++ primaryQS envC5 "abc123",
               protocol := "avalon-index" }] :=
  (c8_service_descriptor wCfg envC5 "abc123" "bodyC5" respC5
    (by decide) (by decide)).1 (by decide) 200 outC5 (by decide)

/-- C9 (amended): the health check reports `"false"` for the `Avalon`
index dependency exactly when the zero-row ping query fails at
transport level (including the client timeout, which Go surfaces as a
transport error) or returns any status other than 200 — so also for
non-200 2xx statuses — and reports `"true"` exactly when the ping
returns a 200 response. -/
theorem c9_health_dependency_status (cfg : Config) (world : String → HTTPResult) :
    ((healthCheckHandler cfg world).2.lookup "Avalon" = some "false"
      ↔ ((∃ e, world (healthPingURL cfg) = .transportErr e)
          ∨ ∃ sc b, world (healthPingURL cfg) = .response sc b ∧ sc ≠ 200))
    ∧ ((healthCheckHandler cfg world).2.lookup "Avalon" = some "true"
      ↔ ∃ b, world (healthPingURL cfg) = .response 200 b) := by
  cases hw : world (healthPingURL cfg) with
  | transportErr m =>
    simp [healthCheckHandler, getAPIResponse, hw, List.lookup]
    decide
  | response sc b =>
    by_cases hsc : sc = 200
    · subst hsc
      simp [healthCheckHandler, getAPIResponse, hw, List.lookup]
      decide
    · simp [healthCheckHandler, getAPIResponse, hw, hsc, List.lookup]
      decide

/-- C9 counterexample: a ping answered with status 204 — a 2xx status
that is not an upstream failure, for which the original claim requires
`"true"` — is reported as `Avalon ↦ "false"`, because the code tests
`StatusCode != 200`, not membership in the 2xx class. -/
theorem c9_health_204_reports_false :
    (healthCheckHandler wCfg (fun _ => HTTPResult.response 204 "no content")).2.lookup "Avalon"
        = some "false"
      ∧ (healthCheckHandler wCfg (fun _ => HTTPResult.response 204 "no content")).2.lookup "Avalon"
          ≠ some "true"
      ∧ 200 ≤ 204 ∧ 204 < 300 := by
  decide

/-- Witness for the amended C9: a concrete all-failing world is
reported as `Avalon ↦ "false"`. -/
theorem c9_health_dependency_status_witness :
    (healthCheckHandler wCfg (fun _ => HTTPResult.transportErr "down")).2.lookup "Avalon"
      = some "false" :=
  (c9_health_dependency_status wCfg (fun _ => HTTPResult.transportErr "down")).1.mpr
    (Or.inl ⟨"down", rfl⟩)

/-- C10: the health check always answers HTTP 200, its map always
carries `AriesAvalon ↦ "true"`, and the outcome of the outbound index
call can only change the `Avalon` entry. -/
theorem c10_health_always_200 (cfg : Config) (world : String → HTTPResult) :
    (healthCheckHandler cfg world).1 = 200
    ∧ (healthCheckHandler cfg world).2.lookup "AriesAvalon" = some "true"
    ∧ ∀ (world2 : String → HTTPResult) (k : String), k ≠ "Avalon" →
        (healthCheckHandler cfg world).2.lookup k
          = (healthCheckHandler cfg world2).2.lookup k := by
  refine ⟨rfl, by simp [healthCheckHandler, List.lookup], ?_⟩
  intro world2 k hk
  by_cases hk1 : k = "AriesAvalon"
  · subst hk1
    simp [healthCheckHandler, List.lookup]
  · have hb1 : (k == "AriesAvalon") = false := beq_eq_false_iff_ne.mpr hk1
    have hb2 : (k == "Avalon") = false := beq_eq_false_iff_ne.mpr hk
    simp [healthCheckHandler, List.lookup, hb1, hb2]

/-- Witness for C10: a failing world and a healthy world agree on the
`AriesAvalon` entry. -/
theorem c10_health_always_200_witness :
    (healthCheckHandler wCfg (fun _ => HTTPResult.transportErr "down")).2.lookup "AriesAvalon"
      = (healthCheckHandler wCfg (fun _ => HTTPResult.response 200 "ok")).2.lookup "AriesAvalon" :=
  (c10_health_always_200 wCfg (fun _ => HTTPResult.transportErr "down")).2.2
    (fun _ => HTTPResult.response 200 "ok") "AriesAvalon" (by decide)

end AriesAvalon
